import Mathlib

/-!
Verification of `check_copied_files.py` against its specification.

The development shallowly embeds the script: file contents are byte lists,
the filesystem is an association list from paths to file data, and the
orchestration loop of `main` is a fold over the traversed entries that
threads the filesystem state and the emitted report events.  Hash
dispatch (`getattr(hashlib, algorithm)`) is a parameter `H` of the
orchestration; MD5 itself is implemented below (RFC 1321) so that the
concrete scenarios of the specification can be evaluated.
-/

set_option maxRecDepth 1000000

namespace CCF

/-- Bytes are modelled as natural numbers below 256. -/
abbrev Bytes := List Nat

/-! ## MD5 (RFC 1321), the default digest algorithm -/

/-- The 32-bit mask. -/
def mask32 : Nat := 4294967295

/-- Addition modulo 2^32. -/
def add32 (a b : Nat) : Nat := (a + b) % 4294967296

/-- Bitwise complement on 32 bits. -/
def not32 (a : Nat) : Nat := mask32 ^^^ a

/-- Left rotation of a 32-bit word. -/
def rotl32 (x n : Nat) : Nat :=
  ((x <<< n) ||| (x >>> (32 - n))) &&& mask32

/-- Round function F of MD5. -/
def mdF (b c d : Nat) : Nat := (b &&& c) ||| (not32 b &&& d)

/-- Round function G of MD5. -/
def mdG (b c d : Nat) : Nat := (d &&& b) ||| (not32 d &&& c)

/-- Round function H of MD5. -/
def mdH (b c d : Nat) : Nat := b ^^^ c ^^^ d

/-- Round function I of MD5. -/
def mdI (b c d : Nat) : Nat := c ^^^ (b ||| not32 d)

/-- The 64 sine-derived constants of MD5. -/
def mdK : List Nat :=
  [0xd76aa478, 0xe8c7b756, 0x242070db, 0xc1bdceee,
   0xf57c0faf, 0x4787c62a, 0xa8304613, 0xfd469501,
   0x698098d8, 0x8b44f7af, 0xffff5bb1, 0x895cd7be,
   0x6b901122, 0xfd987193, 0xa679438e, 0x49b40821,
   0xf61e2562, 0xc040b340, 0x265e5a51, 0xe9b6c7aa,
   0xd62f105d, 0x02441453, 0xd8a1e681, 0xe7d3fbc8,
   0x21e1cde6, 0xc33707d6, 0xf4d50d87, 0x455a14ed,
   0xa9e3e905, 0xfcefa3f8, 0x676f02d9, 0x8d2a4c8a,
   0xfffa3942, 0x8771f681, 0x6d9d6122, 0xfde5380c,
   0xa4beea44, 0x4bdecfa9, 0xf6bb4b60, 0xbebfbc70,
   0x289b7ec6, 0xeaa127fa, 0xd4ef3085, 0x04881d05,
   0xd9d4d039, 0xe6db99e5, 0x1fa27cf8, 0xc4ac5665,
   0xf4292244, 0x432aff97, 0xab9423a7, 0xfc93a039,
   0x655b59c3, 0x8f0ccc92, 0xffeff47d, 0x85845dd1,
   0x6fa87e4f, 0xfe2ce6e0, 0xa3014314, 0x4e0811a1,
   0xf7537e82, 0xbd3af235, 0x2ad7d2bb, 0xeb86d391]

/-- The per-round left-rotation amounts of MD5. -/
def mdS : List Nat :=
  [7, 12, 17, 22, 7, 12, 17, 22, 7, 12, 17, 22, 7, 12, 17, 22,
   5, 9, 14, 20, 5, 9, 14, 20, 5, 9, 14, 20, 5, 9, 14, 20,
   4, 11, 16, 23, 4, 11, 16, 23, 4, 11, 16, 23, 4, 11, 16, 23,
   6, 10, 15, 21, 6, 10, 15, 21, 6, 10, 15, 21, 6, 10, 15, 21]

/-- One of the 64 MD5 operations: `M` is the 16-word message block, `i` the
operation index. -/
def md5Round (M : List Nat) (st : Nat × Nat × Nat × Nat) (i : Nat) :
    Nat × Nat × Nat × Nat :=
  let (a, b, c, d) := st
  let fg : Nat × Nat :=
    if i < 16 then (mdF b c d, i)
    else if i < 32 then (mdG b c d, (5 * i + 1) % 16)
    else if i < 48 then (mdH b c d, (3 * i + 5) % 16)
    else (mdI b c d, (7 * i) % 16)
  let tmp := add32 (add32 (add32 a fg.1) (mdK.getD i 0)) (M.getD fg.2 0)
  (d, add32 b (rotl32 tmp (mdS.getD i 0)), b, c)

/-- Processing of a single 16-word block of MD5. -/
def md5Block (st : Nat × Nat × Nat × Nat) (M : List Nat) :
    Nat × Nat × Nat × Nat :=
  let r := (List.range 64).foldl (md5Round M) st
  (add32 st.1 r.1, add32 st.2.1 r.2.1, add32 st.2.2.1 r.2.2.1,
   add32 st.2.2.2 r.2.2.2)

/-- Little-endian byte decomposition: `n` bytes of `x`. -/
def leBytes : Nat → Nat → List Nat
  | 0, _ => []
  | n + 1, x => (x % 256) :: leBytes n (x / 256)

/-- Grouping of a byte list into 32-bit little-endian words. -/
def bytesToWords : Bytes → List Nat
  | b0 :: b1 :: b2 :: b3 :: rest =>
      (b0 + 256 * b1 + 65536 * b2 + 16777216 * b3) :: bytesToWords rest
  | _ => []

/-- MD5 padding: a 1-bit, zeros to reach 56 mod 64 bytes, then the 64-bit
little-endian bit length. -/
def md5Pad (msg : Bytes) : Bytes :=
  let len := msg.length
  let zeros := (119 - len % 64) % 64
  msg ++ [128] ++ List.replicate zeros 0 ++ leBytes 8 ((len * 8) % 2 ^ 64)

/-- Processing of `n` consecutive 16-word blocks. -/
def md5Process (st : Nat × Nat × Nat × Nat) (ws : List Nat) :
    Nat → Nat × Nat × Nat × Nat
  | 0 => st
  | n + 1 => md5Process (md5Block st (ws.take 16)) (ws.drop 16) n

/-- The MD5 digest of a byte sequence, as 16 bytes. -/
def md5 (msg : Bytes) : Bytes :=
  let padded := md5Pad msg
  let r := md5Process (0x67452301, 0xefcdab89, 0x98badcfe, 0x10325476)
    (bytesToWords padded) (padded.length / 64)
  leBytes 4 r.1 ++ leBytes 4 r.2.1 ++ leBytes 4 r.2.2.1 ++ leBytes 4 r.2.2.2

/-- Lowercase hexadecimal digit of a value below 16. -/
def hexDigit (n : Nat) : Char :=
  if n < 10 then Char.ofNat (48 + n) else Char.ofNat (87 + n)

/-- Two lowercase hexadecimal digits of one byte. -/
def byteHex (b : Nat) : List Char := [hexDigit (b / 16), hexDigit (b % 16)]

/-- The lowercase hexadecimal MD5 digest of a byte sequence, as produced by
`hashlib.md5(data).hexdigest()`. -/
def md5hex (msg : Bytes) : String :=
  String.mk ((md5 msg).foldr (fun b acc => byteHex b ++ acc) [])

/-! ## Filesystem model -/

/-- A filesystem path. -/
abbrev Path := String

/-- The state of one file: its byte content, or a file that exists but
cannot be opened for reading (modelling an `IOError` on `open`). -/
inductive FileData where
  | readable (content : Bytes)
  | unreadable
deriving DecidableEq

/-- The filesystem: an association list from full paths to file data.
Only regular files are recorded; directory structure is implicit in the
path strings. -/
abbrev FS := List (Path × FileData)

/-- Lookup of a path; `none` means the path does not exist
(`os.path.exists` is false). -/
def fsGet : FS → Path → Option FileData
  | [], _ => none
  | (q, d) :: fs, p => if p = q then some d else fsGet fs p

/-- Store a file at a path (creating or overwriting it). -/
def fsSet (fs : FS) (p : Path) (d : FileData) : FS := (p, d) :: fs

/-- ASCII bytes of a string. -/
def strBytes (s : String) : Bytes := s.data.map Char.toNat

/-- String decoded from bytes (text-mode read). -/
def bytesToStr (b : Bytes) : String := String.mk (b.map Char.ofNat)

/-- The error raised by a failing filesystem operation (`IOError`). -/
inductive PyErr where
  | ioError
deriving DecidableEq

deriving instance DecidableEq for Except

/-- Text-mode write (`open(p, 'w')` followed by `write(s)`): stores the
string verbatim. -/
def writeText (fs : FS) (p : Path) (s : String) : FS :=
  fsSet fs p (.readable (strBytes s))

/-- Text-mode read of a whole file (`open(p, 'r')` followed by `read()`);
fails with `IOError` when the path is missing or unreadable. -/
def readText (fs : FS) (p : Path) : Except PyErr String :=
  match fsGet fs p with
  | some (.readable b) => .ok (bytesToStr b)
  | _ => .error .ioError

/-- Binary-mode read of a whole file (`open(p, 'rb')` followed by
`read()`). -/
def readBytes (fs : FS) (p : Path) : Except PyErr Bytes :=
  match fsGet fs p with
  | some (.readable b) => .ok b
  | _ => .error .ioError

/-! ## Path helpers (modelling `os.path`) -/

/-- Characters after the last slash. -/
def fileNameAux (cs : List Char) : List Char :=
  cs.foldl (fun acc c => if c = '/' then [] else acc ++ [c]) []

/-- The base name of a path (the `filename` component that `os.walk`
yields). -/
def fileName (p : Path) : String := String.mk (fileNameAux p.data)

/-- Python's `str.endswith`. -/
def strEndsWith (s suffix : String) : Bool := suffix.data.isSuffixOf s.data

/-- String prefix test, used to express that a path lies under a root
directory. -/
def strIsPrefixOf (pre s : String) : Bool := pre.data.isPrefixOf s.data

/-- `os.path.relpath(p, source)` for a path lying under `source`. -/
def relPath (source p : Path) : Path :=
  String.mk (p.data.drop (source.data.length + 1))

/-- `os.path.join(d, rel)` for a relative second component. -/
def joinPath (d rel : Path) : Path := d ++ "/" ++ rel

/-! ## Embedding of the script -/

/-- The parsed command-line arguments of the script (`args`). -/
structure Config where
  source : Path
  destination : Option Path
  filter : String
  extension : String
  algorithm : String
  forceCheck : Bool
deriving DecidableEq

/-- The value of `hashlib.algorithms_guaranteed` (Python documentation),
which the script passes as `choices` of `--algorithm`. -/
def guaranteedAlgorithms : List String :=
  ["blake2b", "blake2s", "md5", "sha1", "sha224", "sha256", "sha384",
   "sha3_224", "sha3_256", "sha3_384", "sha3_512", "sha512",
   "shake_128", "shake_256"]

/-- The hash dispatch `getattr(hashlib, algorithm)(data).hexdigest()`,
instantiated at MD5: every concrete scenario below selects `md5`, the
script's default algorithm. -/
def hashlibMd5 : String → Bytes → String := fun _ data => md5hex data

/-- A report line printed by the script. -/
inductive Event where
  | created (p : Path)
  | sourceMatch (p : Path)
  | sourceMismatch (p : Path)
  | destMatch (p : Path)
  | destMismatch (p : Path)
deriving DecidableEq

/-- `generate_checksum` (lines 17-42): reads the file in binary mode,
hashes its bytes with the selected algorithm, writes the hex digest to
`file_path + "." + extension` and returns that path.  An unreadable or
missing input file raises `IOError`. -/
def generate_checksum (H : String → Bytes → String) (algorithm ext : String)
    (fs : FS) (file_path : Path) : Except PyErr (FS × Path) :=
  match readBytes fs file_path with
  | .ok data =>
    let readable_hash := H algorithm data
    let checksum_file_path := file_path ++ "." ++ ext
    .ok (writeText fs checksum_file_path readable_hash, checksum_file_path)
  | .error e => .error e

/-- `validate_checksum` (lines 45-68): recomputes the digest of
`file_path`, reads the stored digest from `checksum_file_path` in text
mode, and returns whether the two strings are equal. -/
def validate_checksum (H : String → Bytes → String) (algorithm : String)
    (fs : FS) (file_path checksum_file_path : Path) : Except PyErr Bool :=
  match readBytes fs file_path with
  | .ok data =>
    let readable_hash := H algorithm data
    match readText fs checksum_file_path with
    | .ok stored_hash => .ok (stored_hash == readable_hash)
    | .error e => .error e
  | .error e => .error e

/-- The traversal of `main` (lines 117-121): `os.walk(args.source)`
yields every file under the source root, and a file is kept exactly when
its name does not end with the configured extension.  The parsed
`args.filter` is not consulted anywhere in the loop. -/
def sourceFiles (cfg : Config) (fs : FS) : List Path :=
  (fs.map Prod.fst).filter (fun p =>
    strIsPrefixOf (cfg.source ++ "/") p &&
      ! strEndsWith (fileName p) cfg.extension)

/-- Lines 128-134 of the loop body: if the checksum file does not exist,
the creation notice is printed and then `generate_checksum` creates it.
The result carries the filesystem, the lines printed so far, and the
pending exception if one was raised; the notice precedes the read of the
file, so it is kept even when `generate_checksum` raises (in that case
nothing has been written, since the read precedes the write). -/
def createIfAbsent (H : String → Bytes → String) (cfg : Config) (fs : FS)
    (file_path : Path) : FS × List Event × Option PyErr :=
  if (fsGet fs (file_path ++ "." ++ cfg.extension)).isSome then (fs, [], none)
  else
    match generate_checksum H cfg.algorithm cfg.extension fs file_path with
    | .ok (fs1, _) => (fs1, [.created file_path], none)
    | .error e => (fs, [.created file_path], some e)

/-- Lines 136-143 of the loop body: with `--force-check`, the source file
is validated against its own artifact and a match or mismatch line is
printed; an `IOError` from the validation is returned as the pending
exception. -/
def forceCheckStep (H : String → Bytes → String) (cfg : Config) (fs : FS)
    (file_path : Path) : List Event × Option PyErr :=
  if cfg.forceCheck then
    match validate_checksum H cfg.algorithm fs file_path
        (file_path ++ "." ++ cfg.extension) with
    | .ok b =>
      ([if b then .sourceMatch file_path else .sourceMismatch file_path], none)
    | .error e => ([], some e)
  else ([], none)

/-- Lines 145-158 of the loop body: with a destination configured, the
mirrored path `os.path.join(destination, relative_path)` is validated
against the source's artifact when it exists; an `IOError` from the
validation is returned as the pending exception. -/
def destCheckStep (H : String → Bytes → String) (cfg : Config) (fs : FS)
    (file_path : Path) : List Event × Option PyErr :=
  match cfg.destination with
  | none => ([], none)
  | some dest =>
    let destination_file_path := joinPath dest (relPath cfg.source file_path)
    if (fsGet fs destination_file_path).isSome then
      match validate_checksum H cfg.algorithm fs destination_file_path
          (file_path ++ "." ++ cfg.extension) with
      | .ok b =>
        ([if b then .destMatch destination_file_path
          else .destMismatch destination_file_path], none)
      | .error e => ([], some e)
    else ([], none)

/-- The body of the per-file loop of `main` (lines 124-158): create the
artifact when absent, optionally force-check the source file, and, when a
destination is configured and the mirrored path exists, validate the
destination file against the source's artifact.  An `IOError` raised at
any point propagates (the loop body has no exception handler), but never
undoes what was already done: the returned filesystem and printed lines
are those accumulated up to the raise. -/
def processEntry (H : String → Bytes → String) (cfg : Config) (fs : FS)
    (file_path : Path) : FS × List Event × Option PyErr :=
  match createIfAbsent H cfg fs file_path with
  | (fs1, evs1, some e) => (fs1, evs1, some e)
  | (fs1, evs1, none) =>
    match forceCheckStep H cfg fs1 file_path with
    | (evs2, some e) => (fs1, evs1 ++ evs2, some e)
    | (evs2, none) =>
      match destCheckStep H cfg fs1 file_path with
      | (evs3, oe) => (fs1, evs1 ++ evs2 ++ evs3, oe)

/-- The `for file_path in source_files` loop of `main`: an uncaught
`IOError` aborts the loop, leaving the remaining entries unprocessed but
keeping every write and every line printed before the exception. -/
def runLoop (H : String → Bytes → String) (cfg : Config) :
    List Path → FS → FS × List Event × Option PyErr
  | [], fs => (fs, [], none)
  | f :: rest, fs =>
    match processEntry H cfg fs f with
    | (fs1, evs, some e) => (fs1, evs, some e)
    | (fs1, evs, none) =>
      let r := runLoop H cfg rest fs1
      (r.1, evs ++ r.2.1, r.2.2)

/-- The outcome of one invocation of the script. -/
structure RunResult where
  fs : FS
  events : List Event
  exitCode : Nat
deriving DecidableEq

/-- One invocation of `main`: `argparse` rejects an algorithm outside
`choices` with a usage error (exit code 2) before any traversal; an
uncaught `IOError` in the loop terminates the interpreter with exit
code 1; otherwise the script falls off the end of `main` with exit
code 0. -/
def mainRun (H : String → Bytes → String) (cfg : Config) (fs : FS) :
    RunResult :=
  if cfg.algorithm ∈ guaranteedAlgorithms then
    let r := runLoop H cfg (sourceFiles cfg fs) fs
    { fs := r.1, events := r.2.1,
      exitCode := if r.2.2.isSome then 1 else 0 }
  else
    { fs := fs, events := [], exitCode := 2 }

/-- Modelled from the spec: the name-glob filter semantics (`*` and `?`
wildcards, as in `fnmatch`) that the spec says is applied during
traversal; no glob matching appears in the traversal code.  `fuel`
bounds the recursion and is sufficient at `pattern.length + s.length
+ 1`. -/
def globMatchAux : Nat → List Char → List Char → Bool
  | 0, _, _ => false
  | fuel + 1, ps, s =>
    match ps with
    | [] => s.isEmpty
    | c :: ps' =>
      if c = '*' then
        globMatchAux fuel ps' s ||
          (match s with
           | [] => false
           | _ :: s' => globMatchAux fuel (c :: ps') s')
      else
        match s with
        | [] => false
        | x :: s' => (c = '?' || c = x) && globMatchAux fuel ps' s'

/-- Modelled from the spec: whether a file name matches a name-glob
pattern. -/
def globMatch (pattern s : String) : Bool :=
  globMatchAux (pattern.data.length + s.data.length + 1) pattern.data s.data

/-! ## Helper lemmas -/

/-- Lookup after a store: the stored path reads back the stored data,
every other path is unaffected. -/
theorem fsGet_fsSet (fs : FS) (p q : Path) (d : FileData) :
    fsGet (fsSet fs q d) p = if p = q then some d else fsGet fs p := by
  simp [fsSet, fsGet]

/-- The filesystem returned by `createIfAbsent` is either unchanged
(artifact already present, or nothing written before the raise) or the
write of one digest string at the entry's artifact path, the latter only
when that path was absent. -/
theorem createIfAbsent_fs (H : String → Bytes → String) (cfg : Config)
    (fs : FS) (f : Path) :
    (createIfAbsent H cfg fs f).1 = fs ∨
      (fsGet fs (f ++ "." ++ cfg.extension) = none ∧
        ∃ s, (createIfAbsent H cfg fs f).1 =
          writeText fs (f ++ "." ++ cfg.extension) s) := by
  unfold createIfAbsent
  rcases hcp : fsGet fs (f ++ "." ++ cfg.extension) with _ | d0
  · simp only [Option.isSome_none, Bool.false_eq_true, if_false]
    unfold generate_checksum readBytes
    rcases hf : fsGet fs f with _ | df
    · simp
    · cases df with
      | readable data =>
        refine Or.inr ⟨?_, H cfg.algorithm data, rfl⟩
        simp
      | unreadable => simp
  · simp

/-- The filesystem returned by `processEntry` is the one returned by
`createIfAbsent`: the validation steps never write. -/
theorem processEntry_fst (H : String → Bytes → String) (cfg : Config)
    (fs : FS) (f : Path) :
    (processEntry H cfg fs f).1 = (createIfAbsent H cfg fs f).1 := by
  rcases hca : createIfAbsent H cfg fs f with ⟨fsa, evsa, _ | e⟩
  · rcases hfc : forceCheckStep H cfg fsa f with ⟨evsb, _ | e2⟩
    · rcases hdc : destCheckStep H cfg fsa f with ⟨evsc, oe⟩
      simp [processEntry, hca, hfc, hdc]
    · simp [processEntry, hca, hfc]
  · simp [processEntry, hca]

/-- A file present before `processEntry` is present, with the same data,
afterwards - also when the entry raised. -/
theorem processEntry_preserves (H : String → Bytes → String) (cfg : Config)
    (fs : FS) (f p : Path) (d : FileData)
    (hp : fsGet fs p = some d) :
    fsGet (processEntry H cfg fs f).1 p = some d := by
  rw [processEntry_fst]
  rcases createIfAbsent_fs H cfg fs f with h | ⟨habs, s, h⟩
  · rw [h]; exact hp
  · rw [h, writeText, fsGet_fsSet]
    split
    · next heq => rw [heq, habs] at hp; cases hp
    · exact hp

/-- A file present before the loop is present, with the same data, in the
final filesystem, whether or not the loop aborted. -/
theorem runLoop_preserves (H : String → Bytes → String) (cfg : Config)
    (p : Path) (d : FileData) (files : List Path) (fs : FS)
    (hp : fsGet fs p = some d) :
    fsGet (runLoop H cfg files fs).1 p = some d := by
  induction files generalizing fs with
  | nil => simpa [runLoop] using hp
  | cons f rest ih =>
    rcases hpe : processEntry H cfg fs f with ⟨fs1, evs, oe⟩
    have hfs1 : fsGet fs1 p = some d := by
      have h := processEntry_preserves H cfg fs f p d hp
      rw [hpe] at h
      exact h
    cases oe with
    | none =>
      simp only [runLoop, hpe]
      exact ih fs1 hfs1
    | some e =>
      simp only [runLoop, hpe]
      exact hfs1

/-- Unfolding of the loop at an entry that completed without raising. -/
theorem runLoop_cons_ok (H : String → Bytes → String) (cfg : Config)
    (f : Path) (rest : List Path) (fs fs1 : FS) (evs : List Event)
    (hpe : processEntry H cfg fs f = (fs1, evs, none)) :
    runLoop H cfg (f :: rest) fs =
      ((runLoop H cfg rest fs1).1,
       evs ++ (runLoop H cfg rest fs1).2.1,
       (runLoop H cfg rest fs1).2.2) := by
  rw [runLoop, hpe]

/-- Unfolding of the loop at an entry that raised: the loop stops with the
entry's partial state and lines, dropping the remaining entries. -/
theorem runLoop_cons_err (H : String → Bytes → String) (cfg : Config)
    (f : Path) (rest : List Path) (fs fs1 : FS) (evs : List Event)
    (e : PyErr) (hpe : processEntry H cfg fs f = (fs1, evs, some e)) :
    runLoop H cfg (f :: rest) fs = (fs1, evs, some e) := by
  rw [runLoop, hpe]

/-- Splitting of the loop: after an error-free prefix, the loop continues
from the prefix's final state, prepending the prefix's report lines. -/
theorem runLoop_append (H : String → Bytes → String) (cfg : Config)
    (pre post : List Path) (fs fs0 : FS) (evs0 : List Event)
    (hpre : runLoop H cfg pre fs = (fs0, evs0, none)) :
    runLoop H cfg (pre ++ post) fs =
      ((runLoop H cfg post fs0).1,
       evs0 ++ (runLoop H cfg post fs0).2.1,
       (runLoop H cfg post fs0).2.2) := by
  induction pre generalizing fs evs0 with
  | nil =>
    rw [runLoop] at hpre
    simp only [Prod.mk.injEq] at hpre
    obtain ⟨rfl, rfl, -⟩ := hpre
    simp
  | cons f pre ih =>
    rcases hpe : processEntry H cfg fs f with ⟨fs1, evs, oe⟩
    cases oe with
    | some e =>
      rw [runLoop_cons_err H cfg f pre fs fs1 evs e hpe] at hpre
      simp at hpre
    | none =>
      rcases hr : runLoop H cfg pre fs1 with ⟨fs0', evs0', oe'⟩
      rw [runLoop_cons_ok H cfg f pre fs fs1 evs hpe, hr] at hpre
      simp only [Prod.mk.injEq] at hpre
      obtain ⟨rfl, rfl, hoe⟩ := hpre
      cases oe' with
      | some e2 => simp at hoe
      | none =>
        have hih := ih fs1 evs0' hr
        rw [List.cons_append,
          runLoop_cons_ok H cfg f (pre ++ post) fs fs1 evs hpe, hih]
        simp [List.append_assoc]


/-! ## Concrete scenarios -/

/-- Arguments with every option at its default, source `srcdir`. -/
def cfgC3 : Config :=
  { source := "srcdir", destination := none, filter := "*",
    extension := "checksum", algorithm := "md5", forceCheck := false }

/-- Scenario A of the spec: `a.txt` with content `hello`, no artifact. -/
def fsC3 : FS := [("srcdir/a.txt", .readable (strBytes "hello"))]

/-- Arguments with the name filter set to `*.txt`. -/
def cfgC1 : Config :=
  { source := "srcdir", destination := none, filter := "*.txt",
    extension := "checksum", algorithm := "md5", forceCheck := false }

/-- A source tree holding one file that does not match `*.txt`. -/
def fsC1 : FS := [("srcdir/b.bin", .readable [0])]

/-- Default arguments over source `s`. -/
def cfgC2 : Config :=
  { source := "s", destination := none, filter := "*",
    extension := "checksum", algorithm := "md5", forceCheck := false }

/-- A source tree whose first traversed file is unreadable and whose
second is fine. -/
def fsC2 : FS := [("s/f1", .unreadable), ("s/f2", .readable [104])]

/-- Arguments with a destination root `d` configured, source `s`. -/
def cfgC2w : Config :=
  { source := "s", destination := some "d", filter := "*",
    extension := "checksum", algorithm := "md5", forceCheck := false }

/-- A readable source file without an artifact, whose destination copy
exists but is unreadable: the artifact write succeeds, then the
destination check raises. -/
def fsC2w : FS :=
  [("s/a", .readable (strBytes "hello")), ("d/a", .unreadable)]

/-! ## Claims -/

/-- Claim C1.  The spec says traversal only yields entries matching the
configured name-glob filter.  The code parses `--filter` (and its help
text describes it as a file name filter) but never applies it: with
filter `*.txt`, the non-matching file `b.bin` is still traversed and
processed (its artifact is created). -/
theorem c1_filter_not_applied :
    cfgC1.filter = "*.txt" ∧
    globMatch cfgC1.filter (fileName "srcdir/b.bin") = false ∧
    sourceFiles cfgC1 fsC1 = ["srcdir/b.bin"] ∧
    (mainRun hashlibMd5 cfgC1 fsC1).events = [Event.created "srcdir/b.bin"] := by
  decide

/-- Claim C2 as stated is false: an `IOError` while processing the first
entry aborts the run (exit code 1); the entry is not reported as
failed/skipped (only its creation notice was printed before the raise),
and the second entry is never processed (its artifact is not
created). -/
theorem c2_ioerror_counterexample :
    (mainRun hashlibMd5 cfgC2 fsC2).exitCode = 1 ∧
    (mainRun hashlibMd5 cfgC2 fsC2).events = [Event.created "s/f1"] ∧
    fsGet (mainRun hashlibMd5 cfgC2 fsC2).fs "s/f2.checksum" = none := by
  decide

/-- Claim C2, amended.  An `IOError` raised while processing an entry is
not caught anywhere: the run terminates with exit code 1, the final
filesystem and the printed report are exactly those accumulated through
the error-free prefix of the traversal plus the failing entry's partial
processing (writes made before the raise persist), and the entries after
the failing one contribute nothing - they are never processed. -/
theorem c2_ioerror_fatal (H : String → Bytes → String) (cfg : Config)
    (fs fs0 : FS) (pre rest : List Path) (f : Path) (evs0 : List Event)
    (e : PyErr)
    (halg : cfg.algorithm ∈ guaranteedAlgorithms)
    (hfiles : sourceFiles cfg fs = pre ++ f :: rest)
    (hpre : runLoop H cfg pre fs = (fs0, evs0, none))
    (herr : (processEntry H cfg fs0 f).2.2 = some e) :
    mainRun H cfg fs =
      { fs := (processEntry H cfg fs0 f).1,
        events := evs0 ++ (processEntry H cfg fs0 f).2.1,
        exitCode := 1 } := by
  have hdec := runLoop_append H cfg pre (f :: rest) fs fs0 evs0 hpre
  rcases hpe : processEntry H cfg fs0 f with ⟨fs1, evs, oe⟩
  have hoe : oe = some e := by rw [hpe] at herr; exact herr
  subst hoe
  have habort : runLoop H cfg (f :: rest) fs0 = (fs1, evs, some e) :=
    runLoop_cons_err H cfg f rest fs0 fs1 evs e hpe
  have hrun : runLoop H cfg (sourceFiles cfg fs) fs =
      (fs1, evs0 ++ evs, some e) := by
    rw [hfiles, hdec, habort]
  simp [mainRun, halg, hrun, hpe]

/-- Claim C2's amended theorem, instantiated at a run whose single entry
writes its artifact and then hits an `IOError` opening the unreadable
destination copy: the written artifact and the creation notice survive
the fatal abort. -/
theorem c2_ioerror_fatal_witness :
    mainRun hashlibMd5 cfgC2w fsC2w =
      { fs := (processEntry hashlibMd5 cfgC2w fsC2w "s/a").1,
        events := [] ++ (processEntry hashlibMd5 cfgC2w fsC2w "s/a").2.1,
        exitCode := 1 } :=
  c2_ioerror_fatal hashlibMd5 cfgC2w fsC2w fsC2w [] [] "s/a" [] .ioError
    (by decide) (by decide) (by decide) (by decide)

/-- Claim C3 as stated is false: the created artifact does not contain
the 31-character string `5d41402abc4b2a76b9719d911017c59` given in the
spec (the md5 digest of `hello` has 32 hexadecimal digits). -/
theorem c3_digest_counterexample :
    fsGet (mainRun hashlibMd5 cfgC3 fsC3).fs "srcdir/a.txt.checksum" ≠
      some (.readable (strBytes "5d41402abc4b2a76b9719d911017c59")) := by
  decide

/-- Claim C3, amended.  In a source directory containing `a.txt` with
content `hello` and no artifact, a run with the default algorithm md5
creates the artifact `a.txt.checksum` containing exactly the digest
string `5d41402abc4b2a76b9719d911017c592`, and completes with exit
code 0. -/
theorem c3_scenario_a :
    (mainRun hashlibMd5 cfgC3 fsC3).events = [Event.created "srcdir/a.txt"] ∧
    fsGet (mainRun hashlibMd5 cfgC3 fsC3).fs "srcdir/a.txt.checksum" =
      some (.readable (strBytes "5d41402abc4b2a76b9719d911017c592")) ∧
    (mainRun hashlibMd5 cfgC3 fsC3).exitCode = 0 := by
  decide

/-- A filesystem with one data file and a stored digest carrying a
trailing space. -/
def fsC4 : FS :=
  [("f", .readable (strBytes "hello")),
   ("f.checksum",
    .readable (strBytes "5d41402abc4b2a76b9719d911017c592 "))]

/-- Claim C4.  When the data file and the artifact are both readable,
`validate_checksum` returns exactly the string equality of the stored
digest and the freshly computed digest: case-sensitive, with no
whitespace normalization, and with no write to the filesystem (the
function only reads and returns a Boolean). -/
theorem c4_verify_iff (H : String → Bytes → String) (alg : String)
    (fs : FS) (f cp : Path) (data stored : Bytes)
    (h1 : fsGet fs f = some (.readable data))
    (h2 : fsGet fs cp = some (.readable stored)) :
    validate_checksum H alg fs f cp = .ok (bytesToStr stored == H alg data) ∧
    (validate_checksum H alg fs f cp = .ok true ↔
      bytesToStr stored = H alg data) := by
  constructor
  · simp [validate_checksum, readBytes, readText, h1, h2]
  · simp [validate_checksum, readBytes, readText, h1, h2, beq_iff_eq]

/-- Claim C4's theorem, instantiated at a stored digest that carries a
trailing space: the comparison faithfully fails. -/
theorem c4_verify_iff_witness :
    validate_checksum hashlibMd5 "md5" fsC4 "f" "f.checksum" =
      .ok (bytesToStr (strBytes "5d41402abc4b2a76b9719d911017c592 ") ==
        hashlibMd5 "md5" (strBytes "hello")) ∧
    (validate_checksum hashlibMd5 "md5" fsC4 "f" "f.checksum" = .ok true ↔
      bytesToStr (strBytes "5d41402abc4b2a76b9719d911017c592 ") =
        hashlibMd5 "md5" (strBytes "hello")) :=
  c4_verify_iff hashlibMd5 "md5" fsC4 "f" "f.checksum" (strBytes "hello")
    (strBytes "5d41402abc4b2a76b9719d911017c592 ") (by decide) (by decide)

/-- Default arguments over source `s`, for the idempotence scenario. -/
def cfgC5 : Config :=
  { source := "s", destination := none, filter := "*",
    extension := "checksum", algorithm := "md5", forceCheck := false }

/-- A source file whose artifact already exists with (stale) content. -/
def fsC5 : FS :=
  [("s/a.txt", .readable (strBytes "hello")),
   ("s/a.txt.checksum", .readable (strBytes "stale"))]

/-- Claim C5.  Any file present when the run starts - in particular any
existing checksum artifact - is still present with identical content
when the run ends: the tool only ever writes to artifact paths that are
absent, so an existing artifact is never overwritten. -/
theorem c5_no_overwrite (H : String → Bytes → String) (cfg : Config)
    (fs : FS) (p : Path) (d : FileData) (hp : fsGet fs p = some d) :
    fsGet (mainRun H cfg fs).fs p = some d := by
  unfold mainRun
  split
  · exact runLoop_preserves H cfg p d (sourceFiles cfg fs) fs hp
  · exact hp

/-- Claim C5's theorem, instantiated at an artifact whose stored content
is not even a digest: the run leaves it untouched. -/
theorem c5_no_overwrite_witness :
    fsGet (mainRun hashlibMd5 cfgC5 fsC5).fs "s/a.txt.checksum" =
      some (.readable (strBytes "stale")) :=
  c5_no_overwrite hashlibMd5 cfgC5 fsC5 "s/a.txt.checksum"
    (.readable (strBytes "stale")) (by decide)

/-- Default arguments pointing at a source directory that does not
exist. -/
def cfgC6 : Config :=
  { source := "missing", destination := none, filter := "*",
    extension := "checksum", algorithm := "md5", forceCheck := false }

/-- A filesystem with no file under `missing/`. -/
def fsC6 : FS := [("data/x", .readable [1])]

/-- Claim C6 as stated is false: with a nonexistent source directory the
run does not terminate with a non-zero exit code - `os.walk` silently
yields nothing and the script completes normally with exit code 0. -/
theorem c6_missing_source_counterexample :
    (mainRun hashlibMd5 cfgC6 fsC6).exitCode = 0 ∧
    (mainRun hashlibMd5 cfgC6 fsC6).events = [] := by
  decide

/-- Claim C6, amended.  When no file lies under the source root (in
particular when the source directory does not exist), the traversal is
empty and the run completes normally: exit code 0, no report lines, and
an unchanged filesystem. -/
theorem c6_missing_source (H : String → Bytes → String) (cfg : Config)
    (fs : FS) (halg : cfg.algorithm ∈ guaranteedAlgorithms)
    (hnone : ∀ e ∈ fs, strIsPrefixOf (cfg.source ++ "/") e.1 = false) :
    mainRun H cfg fs = { fs := fs, events := [], exitCode := 0 } := by
  have hsf : sourceFiles cfg fs = [] := by
    rw [sourceFiles, List.filter_eq_nil_iff]
    intro p hp
    rw [List.mem_map] at hp
    obtain ⟨e, he, rfl⟩ := hp
    simp [hnone e he]
  simp [mainRun, halg, hsf, runLoop]

/-- Claim C6's amended theorem, instantiated at a filesystem whose only
file lies outside the missing source root. -/
theorem c6_missing_source_witness :
    mainRun hashlibMd5 cfgC6 fsC6 = { fs := fsC6, events := [], exitCode := 0 } :=
  c6_missing_source hashlibMd5 cfgC6 fsC6 (by decide) (by decide)

/-- Arguments with a destination root `d` configured. -/
def cfgC7 : Config :=
  { source := "s", destination := some "d", filter := "*",
    extension := "checksum", algorithm := "md5", forceCheck := false }

/-- Source file, its artifact, and a destination copy whose bytes
differ. -/
def fsC7 : FS :=
  [("s/a.txt", .readable (strBytes "hello")),
   ("s/a.txt.checksum",
    .readable (strBytes "5d41402abc4b2a76b9719d911017c592")),
   ("d/a.txt", .readable (strBytes "world"))]

/-- Claim C7.  With a destination configured and the entry's artifact
already present: the mirrored path is the destination root joined with
the path relative to the source root; when it does not exist the entry
produces no report and succeeds; when it exists, the Verifier runs
against the destination file using the source's artifact, and its
outcome - including a mismatch - is a report line on a successful
(non-fatal) result. -/
theorem c7_dest_check (H : String → Bytes → String) (cfg : Config)
    (fs : FS) (f : Path) (dest : Path)
    (hd : cfg.destination = some dest)
    (hart : (fsGet fs (f ++ "." ++ cfg.extension)).isSome = true)
    (hfc : cfg.forceCheck = false) :
    (fsGet fs (joinPath dest (relPath cfg.source f)) = none →
      processEntry H cfg fs f = (fs, [], none)) ∧
    (∀ b : Bool, (fsGet fs (joinPath dest (relPath cfg.source f))).isSome →
      validate_checksum H cfg.algorithm fs
          (joinPath dest (relPath cfg.source f))
          (f ++ "." ++ cfg.extension) = .ok b →
      processEntry H cfg fs f =
        (fs, [if b then Event.destMatch (joinPath dest (relPath cfg.source f))
              else Event.destMismatch (joinPath dest (relPath cfg.source f))],
         none)) := by
  constructor
  · intro hmiss
    simp [processEntry, createIfAbsent, hart, forceCheckStep, hfc,
      destCheckStep, hd, hmiss]
  · intro b hex hval
    simp [processEntry, createIfAbsent, hart, forceCheckStep, hfc,
      destCheckStep, hd, hex, hval]

/-- Claim C7's theorem, instantiated at a destination copy with
different bytes: the run reports a mismatch for the destination path and
the entry still succeeds. -/
theorem c7_dest_check_witness :
    processEntry hashlibMd5 cfgC7 fsC7 "s/a.txt" =
      (fsC7, [Event.destMismatch "d/a.txt"], none) :=
  (c7_dest_check hashlibMd5 cfgC7 fsC7 "s/a.txt" "d" (by decide) (by decide)
    (by decide)).2 false (by decide) (by decide)

/-- Claim C8.  Writing a digest string to an artifact path and reading
that path back returns exactly the written string: the writer stores the
digest verbatim, with no whitespace added. -/
theorem c8_write_read_roundtrip (fs : FS) (p : Path) (D : String) :
    readText (writeText fs p D) p = .ok D := by
  have h : (strBytes D).map Char.ofNat = D.data := by
    simp [strBytes, List.map_map, Function.comp_def, Char.ofNat_toNat]
  simp [readText, writeText, fsSet, fsGet, bytesToStr, h]

/-- Arguments selecting an algorithm outside
`hashlib.algorithms_guaranteed`. -/
def cfgC9 : Config :=
  { source := "s", destination := none, filter := "*",
    extension := "checksum", algorithm := "crc32", forceCheck := false }

/-- A source tree that would be processed were the arguments valid. -/
def fsC9 : FS := [("s/a.txt", .readable [0])]

/-- Claim C9.  An algorithm name outside the guaranteed-available set is
rejected by `argparse` at startup: usage error, exit code 2, no file
processed and no filesystem change. -/
theorem c9_invalid_algorithm (H : String → Bytes → String) (cfg : Config)
    (fs : FS) (halg : cfg.algorithm ∉ guaranteedAlgorithms) :
    mainRun H cfg fs = { fs := fs, events := [], exitCode := 2 } := by
  simp [mainRun, halg]

/-- Claim C9's theorem, instantiated at the unsupported algorithm name
`crc32`. -/
theorem c9_invalid_algorithm_witness :
    mainRun hashlibMd5 cfgC9 fsC9 = { fs := fsC9, events := [], exitCode := 2 } :=
  c9_invalid_algorithm hashlibMd5 cfgC9 fsC9 (by decide)

/-- Default arguments over source `s`, for the suffix-exclusion
scenario. -/
def cfgC10 : Config :=
  { source := "s", destination := none, filter := "*",
    extension := "checksum", algorithm := "md5", forceCheck := false }

/-- A source tree holding only the data file `mychecksum`. -/
def fsC10 : FS := [("s/mychecksum", .readable [1])]

/-- Claim C10.  The traversal drops every file whose name ends with the
configured extension string, dot or no dot: such a file is never among
the traversed entries, so it is never processed, never gets an artifact
and is never verified. -/
theorem c10_extension_suffix_excluded (cfg : Config) (fs : FS) (p : Path)
    (h : strEndsWith (fileName p) cfg.extension = true) :
    p ∉ sourceFiles cfg fs := by
  intro hmem
  rw [sourceFiles, List.mem_filter] at hmem
  simp [h] at hmem

/-- Claim C10's theorem, instantiated at a data file named `mychecksum`
under the default extension `checksum`: it is excluded from traversal
although it is not an artifact. -/
theorem c10_extension_suffix_excluded_witness :
    strEndsWith (fileName "s/mychecksum") cfgC10.extension = true ∧
    "s/mychecksum" ∉ sourceFiles cfgC10 fsC10 :=
  ⟨by decide, c10_extension_suffix_excluded cfgC10 fsC10 "s/mychecksum"
    (by decide)⟩

end CCF
